import Mathlib

/-!
Shallow embedding of the `granter` account contract
(`src/cosmwasm/contracts/granter/src/execute.rs` and `contract.rs`).

The contract stores an owner public key (`PUBKEY`) and a grant ledger
(`GRANTS`, keyed by type url and grantee key bytes).  `before_tx` gates each
transaction: a non-owner signer must hold an unexpired grant for every
message in the batch, and the signature must verify over the SHA-256 digest
of the signed bytes.  `grant` and `revoke` are self-authorized mutations of
the ledger.  Bytes are lists of naturals below 256; machine words are `Nat`
with explicit reductions mod 2 ^ 32 where the Rust code uses `u32`.
-/

/-- Raw byte strings, as in `cosmwasm_std::Binary`. -/
abbrev Binary := List Nat

/-- Bech32 addresses, kept opaque as strings (`cosmwasm_std::Addr`). -/
abbrev Addr := String

/-- Block metadata relevant to expirations (`cosmwasm_std::BlockInfo`):
the height and the timestamp in nanoseconds. -/
structure BlockInfo where
  height : Nat
  time : Nat
deriving DecidableEq, Repr

/-- The contract metadata of `cosmwasm_std::Env`. -/
structure ContractInfo where
  address : Addr
deriving DecidableEq, Repr

/-- Execution environment (`cosmwasm_std::Env`), restricted to the fields the
contract reads. -/
structure Env where
  block : BlockInfo
  contract : ContractInfo
deriving DecidableEq, Repr

/-- Message metadata (`cosmwasm_std::MessageInfo`), restricted to the sender. -/
structure MessageInfo where
  sender : Addr
deriving DecidableEq, Repr

/--`cw_utils::Expiration`: never, at a block height, or at a timestamp. -/
inductive Expiration where
  | at_height (h : Nat)
  | at_time (t : Nat)
  | never
deriving DecidableEq, Repr

/-- `cw_utils::Expiration::is_expired`: a height expiry is met once the block
height reaches it, a time expiry once the block time reaches it. -/
def Expiration.is_expired (e : Expiration) (block : BlockInfo) : Bool :=
  match e with
  | .at_height h => block.height ≥ h
  | .at_time t => block.time ≥ t
  | .never => false

/-- A stored grant (`msg::Grant`): just an optional expiration. -/
structure Grant where
  expiry : Option Expiration
deriving DecidableEq, Repr

/-- One message of the transaction batch (`abstract_account::StargateMsg`).
Only the type url is inspected by this contract. -/
structure StargateMsg where
  type_url : String
  value : Binary
deriving DecidableEq, Repr

/-- The contract errors of `error.rs` that `execute.rs` can produce.  `std`
stands for a propagated `cosmwasm_std::StdError` (for example a missing
`PUBKEY` item). -/
inductive ContractError where
  | std
  | unauthorized
  | new_grant_expired
  | grant_not_found (type_url : String) (grantee : String)
  | grant_expired (type_url : String) (grantee : String)
  | invalid_signature
deriving DecidableEq, Repr

/-- The persistent state of the contract: the `PUBKEY` item (absent before
`init`), the `GRANTS` map as a function from keys to optional grants, and the
`cw2` contract-version item written by `instantiate`. -/
structure Storage where
  pubkey : Option Binary
  grants : String → Binary → Option Grant
  contract_version : Option (String × String)

/-- `PUBKEY.save`: unconditional overwrite of the singleton item. -/
def PUBKEY_save (s : Storage) (pk : Binary) : Storage :=
  { s with pubkey := some pk }

/-- `PUBKEY.load`: fails with a storage error when the item is absent. -/
def PUBKEY_load (s : Storage) : Except ContractError Binary :=
  match s.pubkey with
  | some pk => .ok pk
  | none => .error .std

/-- `GRANTS.save`: unconditional upsert at the composite key. -/
def GRANTS_save (s : Storage) (type_url : String) (grantee : Binary)
    (g : Grant) : Storage :=
  { s with grants := fun u d =>
      if u = type_url ∧ d = grantee then some g else s.grants u d }

/-- `GRANTS.remove`: unconditional deletion at the composite key. -/
def GRANTS_remove (s : Storage) (type_url : String) (grantee : Binary) :
    Storage :=
  { s with grants := fun u d =>
      if u = type_url ∧ d = grantee then none else s.grants u d }

/-- `GRANTS.may_load`: optional point lookup, absence is not an error. -/
def GRANTS_may_load (s : Storage) (type_url : String) (grantee : Binary) :
    Option Grant :=
  s.grants type_url grantee

/-- The standard base64 alphabet. -/
def base64Chars : List Char :=
  "ABCDEFGHIJKLMNOPQRSTUVWXYZabcdefghijklmnopqrstuvwxyz0123456789+/".toList

/-- The base64 symbol for a 6-bit group. -/
def base64Char (n : Nat) : Char := base64Chars.getD n 'A'

/-- Standard padded base64 over bytes, three input bytes per four symbols. -/
def base64Core : List Nat → List Char
  | [] => []
  | [b0] =>
      [base64Char (b0 / 4), base64Char (b0 % 4 * 16), '=', '=']
  | [b0, b1] =>
      [base64Char (b0 / 4), base64Char (b0 % 4 * 16 + b1 / 16),
       base64Char (b1 % 16 * 4), '=']
  | b0 :: b1 :: b2 :: rest =>
      base64Char (b0 / 4) :: base64Char (b0 % 4 * 16 + b1 / 16) ::
      base64Char (b1 % 16 * 4 + b2 / 64) :: base64Char (b2 % 64) ::
      base64Core rest

/-- `Binary::to_base64` of `cosmwasm_std`. -/
def to_base64 (b : Binary) : String := String.mk (base64Core b)

/-- A response (`cosmwasm_std::Response`), restricted to its attributes; the
contract adds no messages or events. -/
structure Response where
  attributes : List (String × String)
deriving DecidableEq, Repr

/-- `Response::new`. -/
def Response.new : Response := ⟨[]⟩

/-- `Response::add_attribute`. -/
def Response.add_attribute (r : Response) (k v : String) : Response :=
  ⟨r.attributes ++ [(k, v)]⟩

/-! SHA-256 (the `sha2::Sha256` hasher used by `execute.rs`), over byte lists,
32-bit words as naturals reduced mod `M32`. -/

/-- 2 ^ 32, the modulus of 32-bit words. -/
def M32 : Nat := 4294967296

/-- Right rotation of a 32-bit word by `n` places. -/
def rotr32 (n x : Nat) : Nat :=
  ((x >>> n) ||| (x <<< (32 - n))) % M32

/-- The big sigma-0 function of SHA-256. -/
def bSig0 (x : Nat) : Nat := rotr32 2 x ^^^ rotr32 13 x ^^^ rotr32 22 x

/-- The big sigma-1 function of SHA-256. -/
def bSig1 (x : Nat) : Nat := rotr32 6 x ^^^ rotr32 11 x ^^^ rotr32 25 x

/-- The small sigma-0 function of SHA-256. -/
def sSig0 (x : Nat) : Nat := rotr32 7 x ^^^ rotr32 18 x ^^^ (x >>> 3)

/-- The small sigma-1 function of SHA-256. -/
def sSig1 (x : Nat) : Nat := rotr32 17 x ^^^ rotr32 19 x ^^^ (x >>> 10)

/-- The choice function of SHA-256. -/
def shaCh (x y z : Nat) : Nat := (x &&& y) ^^^ ((x ^^^ 4294967295) &&& z)

/-- The majority function of SHA-256. -/
def shaMaj (x y z : Nat) : Nat := (x &&& y) ^^^ (x &&& z) ^^^ (y &&& z)

/-- The 64 round constants of SHA-256 (FIPS 180-2, in decimal). -/
def shaK : List Nat :=
  [1116352408, 1899447441, 3049323471, 3921009573, 961987163, 1508970993,
   2453635748, 2870763221, 3624381080, 310598401, 607225278, 1426881987,
   1925078388, 2162078206, 2614888103, 3248222580, 3835390401, 4022224774,
   264347078, 604807628, 770255983, 1249150122, 1555081692, 1996064986,
   2554220882, 2821834349, 2952996808, 3210313671, 3336571891, 3584528711,
   113926993, 338241895, 666307205, 773529912, 1294757372, 1396182291,
   1695183700, 1986661051, 2177026350, 2456956037, 2730485921, 2820302411,
   3259730800, 3345764771, 3516065817, 3600352804, 4094571909, 275423344,
   430227734, 506948616, 659060556, 883997877, 958139571, 1322822218,
   1537002063, 1747873779, 1955562222, 2024104815, 2227730452, 2361852424,
   2428436474, 2756734187, 3204031479, 3329325298]

/-- The initial hash state of SHA-256 (FIPS 180-2, in decimal). -/
def shaH0 : List Nat :=
  [1779033703, 3144134277, 1013904242, 2773480762, 1359893119, 2600822924,
   528734635, 1541459225]

/-- Append the padding of SHA-256: a 0x80 byte, zeros up to 56 mod 64, and
the bit length as eight big-endian bytes. -/
def sha256Pad (msg : List Nat) : List Nat :=
  let l := msg.length
  let zeros := (119 - l % 64) % 64
  let bits := l * 8
  msg ++ 0x80 :: List.replicate zeros 0 ++
    [bits >>> 56 &&& 255, bits >>> 48 &&& 255, bits >>> 40 &&& 255,
     bits >>> 32 &&& 255, bits >>> 24 &&& 255, bits >>> 16 &&& 255,
     bits >>> 8 &&& 255, bits &&& 255]

/-- Group bytes into big-endian 32-bit words. -/
def bytesToWords : List Nat → List Nat
  | b0 :: b1 :: b2 :: b3 :: rest =>
      (((b0 * 256 + b1) * 256 + b2) * 256 + b3) :: bytesToWords rest
  | _ => []

/-- The four big-endian bytes of a 32-bit word. -/
def wordToBytes (w : Nat) : List Nat :=
  [w >>> 24 &&& 255, w >>> 16 &&& 255, w >>> 8 &&& 255, w &&& 255]

/-- Extend the 16-word message schedule by `n` further words. -/
def shaExtend : Nat → List Nat → List Nat
  | 0, w => w
  | n + 1, w =>
      let t := w.length
      let next := (w.getD (t - 16) 0 + sSig0 (w.getD (t - 15) 0) +
        w.getD (t - 7) 0 + sSig1 (w.getD (t - 2) 0)) % M32
      shaExtend n (w ++ [next])

/-- One compression round on the eight-word working state. -/
def shaStep (st : List Nat) (wk : Nat × Nat) : List Nat :=
  match st with
  | [a, b, c, d, e, f, g, h] =>
      let t1 := (h + bSig1 e + shaCh e f g + wk.2 + wk.1) % M32
      let t2 := (bSig0 a + shaMaj a b c) % M32
      [(t1 + t2) % M32, a, b, c, (d + t1) % M32, e, f, g]
  | st => st

/-- Compress one 64-word schedule into the hash state. -/
def shaCompress (st : List Nat) (ws : List Nat) : List Nat :=
  let stf := (ws.zip shaK).foldl shaStep st
  (st.zip stf).map (fun p => (p.1 + p.2) % M32)

/-- Split a list into 64-byte blocks, with fuel for structural recursion;
each step consumes at least one element, so `l.length` fuel suffices. -/
def chunks64Aux : Nat → List Nat → List (List Nat)
  | 0, _ => []
  | _ + 1, [] => []
  | n + 1, l => l.take 64 :: chunks64Aux n (l.drop 64)

/-- Split the padded message into 64-byte blocks. -/
def chunks64 (l : List Nat) : List (List Nat) :=
  chunks64Aux l.length l

/-- `execute.rs::sha256`: the SHA-256 digest of a byte string, via the
`sha2` crate. -/
def sha256 (msg : List Nat) : List Nat :=
  let final := (chunks64 (sha256Pad msg)).foldl
    (fun st blk => shaCompress st (shaExtend 48 (bytesToWords blk))) shaH0
  (final.map wordToBytes).flatten

/-- Sanity check of the hasher against the FIPS 180-2 test vector for the
empty message. -/
theorem sha256_nil :
    sha256 [] =
      [0xe3, 0xb0, 0xc4, 0x42, 0x98, 0xfc, 0x1c, 0x14,
       0x9a, 0xfb, 0xf4, 0xc8, 0x99, 0x6f, 0xb9, 0x24,
       0x27, 0xae, 0x41, 0xe4, 0x64, 0x9b, 0x93, 0x4c,
       0xa4, 0x95, 0x99, 0x1b, 0x78, 0x52, 0xb8, 0x55] := by
  decide

/-- Sanity check of the hasher against the FIPS 180-2 test vector for the
three-byte message "abc". -/
theorem sha256_abc :
    sha256 [0x61, 0x62, 0x63] =
      [0xba, 0x78, 0x16, 0xbf, 0x8f, 0x01, 0xcf, 0xea,
       0x41, 0x41, 0x40, 0xde, 0x5d, 0xae, 0x22, 0x23,
       0xb0, 0x03, 0x61, 0xa3, 0x96, 0x17, 0x7a, 0x9c,
       0xb4, 0x10, 0xff, 0x61, 0xf2, 0x00, 0x15, 0xad] := by
  decide

/-! The contract operations of `execute.rs`, in state-passing style: each
operation returns its `ContractResult` together with the storage as left at
the point of return, so that absence of writes on failure paths is visible. -/

/-- The host signature-verification API
(`deps.api.secp256k1_verify(message_hash, signature, public_key)`): returns
whether the signature verifies, or an error for malformed input. -/
abbrev VerifyApi := List Nat → Binary → Binary → Except Unit Bool

/-- Modelled from the spec: the conversion in the missing `error.rs` of a
host verification error (for example a malformed signature) propagated by
the question-mark operator on `secp256k1_verify` into a contract error;
the spec says "Verification failure (including malformed signature) → fail
InvalidSignature". -/
def verify_error_to_contract_error : ContractError := .invalid_signature

/-- `execute.rs::init`: unconditionally store the owner public key. -/
def init (store : Storage) (pubkey : Binary) :
    Except ContractError Response × Storage :=
  let store := PUBKEY_save store pubkey
  (.ok ((Response.new.add_attribute "method" "init").add_attribute
      "pubkey" (to_base64 pubkey)), store)

/-- `execute.rs::assert_has_grant`: walk the message batch in order and fail
at the first message whose key has no grant, or whose grant has a met
expiry. -/
def assert_has_grant (store : Storage) (block : BlockInfo) :
    List StargateMsg → Binary → Except ContractError Unit
  | [], _ => .ok ()
  | msg :: rest, grantee =>
      match GRANTS_may_load store msg.type_url grantee with
      | none => .error (.grant_not_found msg.type_url (to_base64 grantee))
      | some g =>
          match g.expiry with
          | some expiry =>
              if expiry.is_expired block then
                .error (.grant_expired msg.type_url (to_base64 grantee))
              else assert_has_grant store block rest grantee
          | none => assert_has_grant store block rest grantee

/-- `execute.rs::assert_self`: only the account itself may mutate. -/
def assert_self (sender contract : Addr) : Except ContractError Unit :=
  if sender ≠ contract then .error .unauthorized else .ok ()

/-- `execute.rs::before_tx`: hash the sign bytes, load the owner key, default
the claimed key to it; a non-owner key must hold grants for the whole batch;
finally verify the signature over the digest. -/
def before_tx (store : Storage) (api : VerifyApi) (block : BlockInfo)
    (msgs : List StargateMsg) (pubkey : Option Binary)
    (sign_bytes : Binary) (signature : Binary) :
    Except ContractError Response × Storage :=
  let sign_bytes_hash := sha256 sign_bytes
  match PUBKEY_load store with
  | .error e => (.error e, store)
  | .ok self_pubkey =>
      let pubkey := pubkey.getD self_pubkey
      match (if pubkey ≠ self_pubkey then
          assert_has_grant store block msgs pubkey else .ok ()) with
      | .error e => (.error e, store)
      | .ok () =>
          match api sign_bytes_hash signature pubkey with
          | .error _ => (.error verify_error_to_contract_error, store)
          | .ok ok =>
              if !ok then (.error .invalid_signature, store)
              else (.ok (Response.new.add_attribute "method" "before_tx"),
                store)

/-- `execute.rs::after_tx`: unconditional acceptance, touching no state. -/
def after_tx : Except ContractError Response :=
  .ok (Response.new.add_attribute "method" "after_tx")

/-- `execute.rs::grant`: self-authorized upsert of a grant, rejecting an
expiry that is already met. -/
def grant (store : Storage) (env : Env) (info : MessageInfo)
    (type_url : String) (grantee : Binary) (expiry : Option Expiration) :
    Except ContractError Response × Storage :=
  match assert_self info.sender env.contract.address with
  | .error e => (.error e, store)
  | .ok () =>
      if (match expiry with
          | some e => e.is_expired env.block
          | none => false) then
        (.error .new_grant_expired, store)
      else
        let store := GRANTS_save store type_url grantee { expiry := expiry }
        (.ok ((((Response.new.add_attribute "method" "grant").add_attribute
            "granter" env.contract.address).add_attribute
            "grantee" (to_base64 grantee)).add_attribute
            "type_url" type_url), store)

/-- `execute.rs::revoke`: self-authorized unconditional deletion. -/
def revoke (store : Storage) (env : Env) (info : MessageInfo)
    (type_url : String) (grantee : Binary) :
    Except ContractError Response × Storage :=
  match assert_self info.sender env.contract.address with
  | .error e => (.error e, store)
  | .ok () =>
      let store := GRANTS_remove store type_url grantee
      (.ok ((((Response.new.add_attribute "method" "revoke").add_attribute
          "granter" env.contract.address).add_attribute
          "grantee" (to_base64 grantee)).add_attribute
          "type_url" type_url), store)

/-- `cw2::set_contract_version`: unconditional write of the version item. -/
def set_contract_version (store : Storage) (name version : String) :
    Storage :=
  { store with contract_version := some (name, version) }

/-- `contract.rs::instantiate`: record the contract version, then `init`.
The crate constants CONTRACT_NAME and CONTRACT_VERSION are passed as
parameters since the crate root is not part of the embedded sources. -/
def instantiate (name version : String) (store : Storage) (pubkey : Binary) :
    Except ContractError Response × Storage :=
  init (set_contract_version store name version) pubkey

/-- Covering condition for one message: the ledger holds a grant for the
message type url and the grantee, and its expiry, if any, is not met. -/
def grant_covers (store : Storage) (block : BlockInfo) (msg : StargateMsg)
    (grantee : Binary) : Bool :=
  match store.grants msg.type_url grantee with
  | none => false
  | some g =>
      match g.expiry with
      | none => true
      | some e => !e.is_expired block

/-- Whether a contract result is a success. -/
def resultIsOk {ε α : Type} : Except ε α → Bool
  | .ok _ => true
  | .error _ => false

/-- The signature-verification tail of `before_tx`, as a function of the
host API result: a host error propagates, a negative verdict is
`invalid_signature`, a positive verdict accepts. -/
def sigcheck (r : Except Unit Bool) : Except ContractError Response :=
  match r with
  | .error _ => .error verify_error_to_contract_error
  | .ok ok =>
      if !ok then .error .invalid_signature
      else .ok (Response.new.add_attribute "method" "before_tx")

/-! Helper lemmas shared by the claim theorems. -/

/-- The signature tail succeeds exactly on a positive host verdict. -/
theorem sigcheck_isOk (r : Except Unit Bool) :
    resultIsOk (sigcheck r) = true ↔ r = .ok true := by
  cases r with
  | error u => simp [sigcheck, resultIsOk, verify_error_to_contract_error]
  | ok b => cases b <;> simp [sigcheck, resultIsOk]

/-- Every non-positive host verdict makes the signature tail fail with
`invalid_signature`. -/
theorem sigcheck_fails (r : Except Unit Bool) :
    (r = .ok false → sigcheck r = .error .invalid_signature)
    ∧ ∀ u : Unit, r = .error u → sigcheck r = .error .invalid_signature := by
  constructor
  · intro h; rw [h]; rfl
  · intro u h; rw [h]; rfl

/-- The batch walk succeeds exactly when every message of the batch is
covered by an unexpired grant for the grantee. -/
theorem assert_has_grant_ok_iff (store : Storage) (block : BlockInfo)
    (msgs : List StargateMsg) (grantee : Binary) :
    assert_has_grant store block msgs grantee = .ok () ↔
      ∀ m ∈ msgs, grant_covers store block m grantee = true := by
  induction msgs with
  | nil => simp [assert_has_grant]
  | cons msg rest ih =>
      simp only [assert_has_grant, GRANTS_may_load, List.forall_mem_cons]
      cases hg : store.grants msg.type_url grantee with
      | none => simp [grant_covers, hg]
      | some g =>
          cases he : g.expiry with
          | none => simp [grant_covers, hg, he, ih]
          | some e =>
              cases hexp : e.is_expired block with
              | false => simp [grant_covers, hg, he, hexp, ih]
              | true => simp [grant_covers, hg, he, hexp]

/-- A covered batch segment is walked through without effect on the
outcome. -/
theorem assert_has_grant_append (store : Storage) (block : BlockInfo)
    (pre rest : List StargateMsg) (grantee : Binary)
    (hpre : ∀ m ∈ pre, grant_covers store block m grantee = true) :
    assert_has_grant store block (pre ++ rest) grantee =
      assert_has_grant store block rest grantee := by
  induction pre with
  | nil => rfl
  | cons msg pre ih =>
      have hmsg := hpre msg (by simp)
      have hrest : ∀ m ∈ pre, grant_covers store block m grantee = true :=
        fun m hm => hpre m (by simp [hm])
      unfold grant_covers at hmsg
      simp only [List.cons_append, assert_has_grant, GRANTS_may_load]
      cases hg : store.grants msg.type_url grantee with
      | none => rw [hg] at hmsg; simp at hmsg
      | some g =>
          rw [hg] at hmsg
          cases he : g.expiry with
          | none => simp [he, List.append_eq, ih hrest]
          | some e =>
              simp only [he] at hmsg
              simp only [Bool.not_eq_true' ] at hmsg
              simp [he, hmsg, List.append_eq, ih hrest]

/-- Computation of `before_tx` once the claimed key differs from the stored
owner key: the grant walk decides first, then signature verification over
the SHA-256 digest. -/
theorem before_tx_delegate_eq (store : Storage) (api : VerifyApi)
    (block : BlockInfo) (msgs : List StargateMsg) (pk owner : Binary)
    (sb sig : Binary) (hpub : store.pubkey = some owner)
    (hne : pk ≠ owner) :
    before_tx store api block msgs (some pk) sb sig =
      ((match assert_has_grant store block msgs pk with
        | .error e => .error e
        | .ok () => sigcheck (api (sha256 sb) sig pk)), store) := by
  simp only [before_tx, PUBKEY_load, hpub, Option.getD]
  rw [if_pos hne]
  cases assert_has_grant store block msgs pk with
  | error e => rfl
  | ok u =>
      cases u
      cases api (sha256 sb) sig pk with
      | error e => rfl
      | ok b => cases b <;> rfl

/-- Computation of `before_tx` when the claimed key is omitted or equals the
stored owner key: the grant ledger is skipped and only signature
verification over the SHA-256 digest decides. -/
theorem before_tx_owner_eq (store : Storage) (api : VerifyApi)
    (block : BlockInfo) (msgs : List StargateMsg) (pk : Option Binary)
    (owner sb sig : Binary) (hpub : store.pubkey = some owner)
    (hpk : pk = none ∨ pk = some owner) :
    before_tx store api block msgs pk sb sig =
      (sigcheck (api (sha256 sb) sig owner), store) := by
  have hgd : pk.getD owner = owner := by
    cases hpk with
    | inl h => rw [h]; rfl
    | inr h => rw [h]; rfl
  simp only [before_tx, PUBKEY_load, hpub, hgd]
  rw [if_neg (by simp)]
  cases api (sha256 sb) sig owner with
  | error e => rfl
  | ok b => cases b <;> rfl

/-! The claim theorems. -/

/-- C1: for a non-owner effective signer, `before_tx` checks the message
batch all-or-nothing in batch order: with every message before `msg`
covered, an absent key at `msg` rejects the whole batch with
`grant_not_found`, a grant with a met expiry at `msg` rejects it with
`grant_expired`, and the grant-check stage passes exactly when every
message of the batch is covered by an unexpired grant for the delegate. -/
theorem before_tx_all_or_nothing_over_batch
    (store : Storage) (api : VerifyApi) (block : BlockInfo)
    (pre : List StargateMsg) (msg : StargateMsg) (post : List StargateMsg)
    (owner pk sb sig : Binary)
    (hpub : store.pubkey = some owner) (hne : pk ≠ owner)
    (hpre : ∀ m ∈ pre, grant_covers store block m pk = true) :
    (store.grants msg.type_url pk = none →
      (before_tx store api block (pre ++ msg :: post) (some pk) sb sig).1
        = .error (.grant_not_found msg.type_url (to_base64 pk)))
    ∧ (∀ e : Expiration, store.grants msg.type_url pk = some ⟨some e⟩ →
        e.is_expired block = true →
        (before_tx store api block (pre ++ msg :: post) (some pk) sb sig).1
          = .error (.grant_expired msg.type_url (to_base64 pk)))
    ∧ (assert_has_grant store block (pre ++ msg :: post) pk = .ok ()
        ↔ ∀ m ∈ pre ++ msg :: post, grant_covers store block m pk = true) := by
  refine ⟨?_, ?_, assert_has_grant_ok_iff store block (pre ++ msg :: post) pk⟩
  · intro hnone
    rw [before_tx_delegate_eq store api block _ pk owner sb sig hpub hne]
    rw [assert_has_grant_append store block pre _ pk hpre]
    simp [assert_has_grant, GRANTS_may_load, hnone]
  · intro e hsome hexp
    rw [before_tx_delegate_eq store api block _ pk owner sb sig hpub hne]
    rw [assert_has_grant_append store block pre _ pk hpre]
    simp [assert_has_grant, GRANTS_may_load, hsome, hexp]

/-- Witness for C1: a delegate holding an unexpired grant for scope "a" but
none for scope "b" has the two-message batch rejected with
`grant_not_found` at the second message. -/
theorem before_tx_all_or_nothing_over_batch_witness :
    ([2] : Binary) ≠ [1]
    ∧ (∀ m ∈ [StargateMsg.mk "a" []],
        grant_covers
          ⟨some [1],
           fun u d => if u = "a" ∧ d = [2] then some ⟨none⟩ else none,
           none⟩ ⟨5, 5⟩ m [2] = true)
    ∧ (before_tx
        ⟨some [1],
         fun u d => if u = "a" ∧ d = [2] then some ⟨none⟩ else none,
         none⟩
        (fun _ _ _ => .ok true) ⟨5, 5⟩
        [StargateMsg.mk "a" [], StargateMsg.mk "b" []] (some [2]) [] []).1
      = .error (.grant_not_found "b" (to_base64 [2])) := by
  refine ⟨by decide, by decide, ?_⟩
  exact (before_tx_all_or_nothing_over_batch
    ⟨some [1], fun u d => if u = "a" ∧ d = [2] then some ⟨none⟩ else none,
     none⟩
    (fun _ _ _ => .ok true) ⟨5, 5⟩
    [StargateMsg.mk "a" []] (StargateMsg.mk "b" []) []
    [1] [2] [] [] rfl (by decide) (by decide)).1 (by decide)

/-- C2: with the claimed key omitted or equal to the stored owner key, the
grant ledger is irrelevant to `before_tx` — any two ledgers give the same
result — and the call succeeds exactly when the signature verifies against
the owner key over the SHA-256 digest of the signed payload. -/
theorem before_tx_owner_skips_grant_ledger
    (g₁ g₂ : String → Binary → Option Grant)
    (v₁ v₂ : Option (String × String)) (owner : Binary) (api : VerifyApi)
    (block : BlockInfo) (msgs : List StargateMsg) (pk : Option Binary)
    (sb sig : Binary) (hpk : pk = none ∨ pk = some owner) :
    (before_tx ⟨some owner, g₁, v₁⟩ api block msgs pk sb sig).1
      = (before_tx ⟨some owner, g₂, v₂⟩ api block msgs pk sb sig).1
    ∧ (resultIsOk (before_tx ⟨some owner, g₁, v₁⟩ api block msgs pk sb sig).1
        = true ↔ api (sha256 sb) sig owner = .ok true) := by
  rw [before_tx_owner_eq ⟨some owner, g₁, v₁⟩ api block msgs pk owner sb sig
      rfl hpk,
    before_tx_owner_eq ⟨some owner, g₂, v₂⟩ api block msgs pk owner sb sig
      rfl hpk]
  exact ⟨rfl, sigcheck_isOk (api (sha256 sb) sig owner)⟩

/-- Witness for C2: a self-signed call with the owner key succeeds under a
positively verifying API against a ledger holding a grant and against the
empty ledger alike. -/
theorem before_tx_owner_skips_grant_ledger_witness :
    ((some [1] : Option Binary) = none ∨ (some [1] : Option Binary) = some [1])
    ∧ ((before_tx
          ⟨some [1], fun _ _ => some ⟨none⟩, none⟩
          (fun _ _ _ => .ok true) ⟨0, 0⟩ [] (some [1]) [] []).1
        = (before_tx
          ⟨some [1], fun _ _ => none, none⟩
          (fun _ _ _ => .ok true) ⟨0, 0⟩ [] (some [1]) [] []).1)
    ∧ (resultIsOk (before_tx
          ⟨some [1], fun _ _ => some ⟨none⟩, none⟩
          (fun _ _ _ => .ok true) ⟨0, 0⟩ [] (some [1]) [] []).1 = true
        ↔ (fun _ _ _ => Except.ok true : VerifyApi) (sha256 []) [] [1]
            = .ok true) :=
  ⟨Or.inr rfl,
   before_tx_owner_skips_grant_ledger
     (fun _ _ => some ⟨none⟩) (fun _ _ => none) none none [1]
     (fun _ _ _ => .ok true) ⟨0, 0⟩ [] (some [1]) [] [] (Or.inr rfl)⟩

/-- C3: once the grant stage is passed (or skipped for the owner),
`before_tx` verifies the signature against the effective signer and the
SHA-256 digest of the signed payload: it succeeds exactly on a positive
verdict, and both a negative verdict and a host verification error (a
malformed signature) fail with `invalid_signature`. -/
theorem before_tx_sha256_digest_invalid_signature
    (store : Storage) (api : VerifyApi) (block : BlockInfo)
    (msgs : List StargateMsg) (pk : Option Binary) (owner sb sig : Binary)
    (hpub : store.pubkey = some owner)
    (hgrant : pk.getD owner = owner ∨
      assert_has_grant store block msgs (pk.getD owner) = .ok ()) :
    (resultIsOk (before_tx store api block msgs pk sb sig).1 = true
      ↔ api (sha256 sb) sig (pk.getD owner) = .ok true)
    ∧ (api (sha256 sb) sig (pk.getD owner) = .ok false →
        (before_tx store api block msgs pk sb sig).1
          = .error .invalid_signature)
    ∧ (∀ u : Unit, api (sha256 sb) sig (pk.getD owner) = .error u →
        (before_tx store api block msgs pk sb sig).1
          = .error .invalid_signature) := by
  have key : (before_tx store api block msgs pk sb sig).1
      = sigcheck (api (sha256 sb) sig (pk.getD owner)) := by
    cases pk with
    | none =>
        rw [before_tx_owner_eq store api block msgs none owner sb sig hpub
          (Or.inl rfl)]
        rfl
    | some pk =>
        by_cases hpe : pk = owner
        · subst hpe
          rw [before_tx_owner_eq store api block msgs (some pk) pk sb sig hpub
            (Or.inr rfl)]
          rfl
        · have hok : assert_has_grant store block msgs pk = .ok () := by
            cases hgrant with
            | inl h => exact absurd h hpe
            | inr h => exact h
          rw [before_tx_delegate_eq store api block msgs pk owner sb sig hpub
            hpe, hok]
          rfl
  rw [key]
  exact ⟨sigcheck_isOk (api (sha256 sb) sig (pk.getD owner)),
    (sigcheck_fails (api (sha256 sb) sig (pk.getD owner))).1,
    (sigcheck_fails (api (sha256 sb) sig (pk.getD owner))).2⟩

/-- Witness for C3: a self-signed call whose API reports a host
verification error (malformed signature) fails with `invalid_signature`. -/
theorem before_tx_sha256_digest_invalid_signature_witness :
    (Storage.mk (some [1]) (fun _ _ => none) none).pubkey = some [1]
    ∧ (before_tx ⟨some [1], fun _ _ => none, none⟩
        (fun _ _ _ => .error ()) ⟨0, 0⟩ [] (some [1]) [] []).1
      = .error .invalid_signature :=
  ⟨rfl,
   (before_tx_sha256_digest_invalid_signature
     ⟨some [1], fun _ _ => none, none⟩ (fun _ _ _ => .error ()) ⟨0, 0⟩ []
     (some [1]) [1] [] [] rfl (Or.inl rfl)).2.2 () rfl⟩

/-- C4: a `grant` call from the account itself whose expiry is already met
at the current block fails with `new_grant_expired` and returns the storage,
grant ledger included, exactly as it was — the failure occurs before any
write. -/
theorem grant_with_met_expiry_rejected
    (store : Storage) (env : Env) (info : MessageInfo)
    (type_url : String) (grantee : Binary) (e : Expiration)
    (hself : info.sender = env.contract.address)
    (hexp : e.is_expired env.block = true) :
    grant store env info type_url grantee (some e)
      = (.error .new_grant_expired, store) := by
  simp [grant, assert_self, hself, hexp]

/-- Witness for C4: granting at block height 7 with expiry at height 5
fails with `new_grant_expired` and leaves the storage untouched. -/
theorem grant_with_met_expiry_rejected_witness :
    ("acc" : Addr) = "acc"
    ∧ Expiration.is_expired (.at_height 5) ⟨7, 0⟩ = true
    ∧ grant ⟨some [1], fun _ _ => none, none⟩ ⟨⟨7, 0⟩, ⟨"acc"⟩⟩ ⟨"acc"⟩
        "a" [2] (some (.at_height 5))
      = (.error .new_grant_expired, ⟨some [1], fun _ _ => none, none⟩) :=
  ⟨rfl, by decide,
   grant_with_met_expiry_rejected ⟨some [1], fun _ _ => none, none⟩
     ⟨⟨7, 0⟩, ⟨"acc"⟩⟩ ⟨"acc"⟩ "a" [2] (.at_height 5) rfl (by decide)⟩

/-- C5: `grant` and `revoke` from a sender other than the account's own
contract address fail with `unauthorized` and return the storage exactly as
it was; when the sender equals the contract address the self-authorization
check passes. -/
theorem mutations_from_non_self_unauthorized
    (store : Storage) (env : Env) (info : MessageInfo)
    (type_url : String) (grantee : Binary) (expiry : Option Expiration)
    (hne : info.sender ≠ env.contract.address) :
    grant store env info type_url grantee expiry
      = (.error .unauthorized, store)
    ∧ revoke store env info type_url grantee
      = (.error .unauthorized, store)
    ∧ (∀ a : Addr, assert_self a a = .ok ()) := by
  refine ⟨?_, ?_, fun a => by simp [assert_self]⟩ <;>
    simp [grant, revoke, assert_self, hne]

/-- Witness for C5: a stranger calling `grant` and `revoke` gets
`unauthorized`, and the self-check accepts the account's own address. -/
theorem mutations_from_non_self_unauthorized_witness :
    ("mallory" : Addr) ≠ "acc"
    ∧ grant ⟨some [1], fun _ _ => none, none⟩ ⟨⟨0, 0⟩, ⟨"acc"⟩⟩ ⟨"mallory"⟩
        "a" [2] none
      = (.error .unauthorized, ⟨some [1], fun _ _ => none, none⟩)
    ∧ revoke ⟨some [1], fun _ _ => none, none⟩ ⟨⟨0, 0⟩, ⟨"acc"⟩⟩ ⟨"mallory"⟩
        "a" [2]
      = (.error .unauthorized, ⟨some [1], fun _ _ => none, none⟩)
    ∧ (∀ a : Addr, assert_self a a = .ok ()) := by
  have h := mutations_from_non_self_unauthorized
    ⟨some [1], fun _ _ => none, none⟩ ⟨⟨0, 0⟩, ⟨"acc"⟩⟩ ⟨"mallory"⟩
    "a" [2] none (by decide)
  exact ⟨by decide, h.1, h.2.1, h.2.2⟩

/-- C6: ledger algebra through the mutation API, for a self-authorized
caller: a lookup at the key just written by `grant` returns exactly the
grant written, whatever was there before (at most one grant per key, new
writes overwrite); a lookup after `revoke` of the key returns absent;
`revoke` always succeeds; and `revoke` of an absent key leaves the ledger
pointwise unchanged (a no-op). -/
theorem grant_ledger_put_get_remove
    (store : Storage) (env : Env) (info : MessageInfo)
    (type_url u : String) (grantee d : Binary) (expiry : Option Expiration)
    (hself : info.sender = env.contract.address)
    (hexp : ∀ e, expiry = some e → e.is_expired env.block = false) :
    ((grant store env info type_url grantee expiry).2.grants type_url grantee
        = some ⟨expiry⟩)
    ∧ ((revoke store env info type_url grantee).2.grants type_url grantee
        = none)
    ∧ (resultIsOk (revoke store env info type_url grantee).1 = true)
    ∧ (store.grants type_url grantee = none →
        (revoke store env info type_url grantee).2.grants u d
          = store.grants u d) := by
  have hsc : assert_self info.sender env.contract.address = .ok () := by
    simp [assert_self, hself]
  refine ⟨?_, ?_, ?_, ?_⟩
  · cases hx : expiry with
    | none => simp [grant, hsc, GRANTS_save]
    | some e => simp [grant, hsc, hexp e hx, GRANTS_save]
  · simp [revoke, hsc, GRANTS_remove]
  · simp [revoke, hsc, resultIsOk]
  · intro habs
    simp only [revoke, hsc, GRANTS_remove]
    by_cases hud : u = type_url ∧ d = grantee
    · obtain ⟨h1, h2⟩ := hud
      subst h1; subst h2
      rw [if_pos ⟨rfl, rfl⟩, habs]
    · rw [if_neg hud]

/-- Witness for C6 at a concrete key: write then read back, revoke then
read absent, and revoke of a key never written is a pointwise no-op. -/
theorem grant_ledger_put_get_remove_witness :
    ("acc" : Addr) = "acc"
    ∧ (∀ e : Expiration, (some (Expiration.at_height 9) : Option Expiration)
          = some e → e.is_expired (BlockInfo.mk 3 0) = false)
    ∧ ((grant ⟨some [1], fun _ _ => none, none⟩ ⟨⟨3, 0⟩, ⟨"acc"⟩⟩ ⟨"acc"⟩
          "a" [2] (some (.at_height 9))).2.grants "a" [2]
        = some ⟨some (.at_height 9)⟩)
    ∧ ((revoke ⟨some [1], fun _ _ => none, none⟩ ⟨⟨3, 0⟩, ⟨"acc"⟩⟩ ⟨"acc"⟩
          "a" [2]).2.grants "a" [2] = none)
    ∧ (resultIsOk (revoke ⟨some [1], fun _ _ => none, none⟩
          ⟨⟨3, 0⟩, ⟨"acc"⟩⟩ ⟨"acc"⟩ "a" [2]).1 = true)
    ∧ ((Storage.mk (some [1]) (fun _ _ => none) none).grants "a" [2] = none →
        (revoke ⟨some [1], fun _ _ => none, none⟩ ⟨⟨3, 0⟩, ⟨"acc"⟩⟩ ⟨"acc"⟩
          "a" [2]).2.grants "b" [3]
          = (Storage.mk (some [1]) (fun _ _ => none) none).grants "b" [3]) := by
  have hexp : ∀ e : Expiration, (some (Expiration.at_height 9) :
      Option Expiration) = some e →
      e.is_expired (BlockInfo.mk 3 0) = false := by
    intro e he
    injection he with he
    rw [← he]
    decide
  have h := grant_ledger_put_get_remove ⟨some [1], fun _ _ => none, none⟩
    ⟨⟨3, 0⟩, ⟨"acc"⟩⟩ ⟨"acc"⟩ "a" "b" [2] [3] (some (.at_height 9)) rfl hexp
  exact ⟨rfl, hexp, h.1, h.2.1, h.2.2.1, fun _ => h.2.2.2 rfl⟩

/-- C7: `before_tx` never mutates persistent state — on every invocation,
successful or failing (including a rejection for a grant whose expiry has
been met), the returned storage, owner key and grant ledger included, is
exactly the input storage. -/
theorem before_tx_leaves_state_unchanged
    (store : Storage) (api : VerifyApi) (block : BlockInfo)
    (msgs : List StargateMsg) (pk : Option Binary) (sb sig : Binary) :
    (before_tx store api block msgs pk sb sig).2 = store := by
  unfold before_tx
  split
  · rfl
  · dsimp only
    split
    · rfl
    · split
      · rfl
      · split <;> rfl

/-- C8: `after_tx` always succeeds with the bare acceptance response; it
takes no state and has no failure path. -/
theorem after_tx_always_accepts :
    after_tx = .ok (Response.new.add_attribute "method" "after_tx") := rfl

/-- C9: with a claimed key differing from the owner key but an empty
message batch, the grant walk passes vacuously and `before_tx` succeeds
exactly when the signature verifies against the claimed key over the
SHA-256 digest. -/
theorem before_tx_empty_batch_delegate
    (store : Storage) (api : VerifyApi) (block : BlockInfo)
    (owner pk sb sig : Binary)
    (hpub : store.pubkey = some owner) (hne : pk ≠ owner) :
    assert_has_grant store block [] pk = .ok ()
    ∧ (resultIsOk (before_tx store api block [] (some pk) sb sig).1 = true
        ↔ api (sha256 sb) sig pk = .ok true) := by
  refine ⟨rfl, ?_⟩
  rw [before_tx_delegate_eq store api block [] pk owner sb sig hpub hne]
  exact sigcheck_isOk (api (sha256 sb) sig pk)

/-- Witness for C9: a delegate with no grants at all and an empty batch
succeeds under a positively verifying API. -/
theorem before_tx_empty_batch_delegate_witness :
    ([2] : Binary) ≠ [1]
    ∧ assert_has_grant ⟨some [1], fun _ _ => none, none⟩ ⟨0, 0⟩ [] [2]
        = .ok ()
    ∧ (resultIsOk (before_tx ⟨some [1], fun _ _ => none, none⟩
          (fun _ _ _ => .ok true) ⟨0, 0⟩ [] (some [2]) [] []).1 = true
        ↔ (fun _ _ _ => Except.ok true : VerifyApi) (sha256 []) [] [2]
            = .ok true) := by
  have h := before_tx_empty_batch_delegate ⟨some [1], fun _ _ => none, none⟩
    (fun _ _ _ => .ok true) ⟨0, 0⟩ [1] [2] [] [] rfl (by decide)
  exact ⟨by decide, h.1, h.2⟩

/-- C10: `init` stores the supplied owner key unconditionally and never
fails; a second `init`, and likewise a second `instantiate`, succeeds and
overwrites the previously stored owner key. -/
theorem init_overwrites_owner_key
    (store : Storage) (pk1 pk2 : Binary) (name version : String) :
    resultIsOk (init store pk1).1 = true
    ∧ (init store pk1).2.pubkey = some pk1
    ∧ resultIsOk (init (init store pk1).2 pk2).1 = true
    ∧ (init (init store pk1).2 pk2).2.pubkey = some pk2
    ∧ resultIsOk (instantiate name version
        (instantiate name version store pk1).2 pk2).1 = true
    ∧ (instantiate name version
        (instantiate name version store pk1).2 pk2).2.pubkey = some pk2 :=
  ⟨rfl, rfl, rfl, rfl, rfl, rfl⟩
